import Mathlib

/-!
Verification of the post resource controller
(`src/my-world-backend/src/api/posts/posts.ctrl.js`).

The controller exposes CRUD handlers (`write`, `list`, `read`, `update`,
`remove`) plus the `checkObjectId` middleware over a Mongo-backed post
store.  The definitions below are a shallow embedding of that JavaScript
source: request payloads are JSON-like values, the Joi schemas are
translated field by field, and the mongoose/router pieces that live
outside the controller file are modelled from the specification where
noted.
-/

/-- A post record, as stored by the document store.  The `id` models the
Mongo ObjectId (24 hex characters); because an ObjectId's leading bytes
encode its creation timestamp, the string order of ids is creation order,
so sorting by id descending is most-recent-first. -/
structure Post where
  id : String
  title : String
  body : String
  tags : List String
deriving Repr, DecidableEq

/-- A JSON-like value, enough to model request payloads: strings, numbers,
booleans and arrays. -/
inductive JsVal where
  | vstr (s : String)
  | vnum (n : Int)
  | vbool (b : Bool)
  | varr (xs : List JsVal)

/-- A JS object payload: a list of key/value pairs (JS object keys are
unique; we never build duplicates). -/
abbrev Payload := List (String × JsVal)

/-- Field lookup in a payload object. -/
def getField (p : Payload) (k : String) : Option JsVal :=
  (p.find? (fun kv => kv.1 == k)).map (fun kv => kv.2)

/-- `Joi.string()` : accepts exactly non-empty strings (Joi rejects the
empty string unless `.allow('')` is used, and does not coerce numbers). -/
def joiStringOk : JsVal → Bool
  | JsVal.vstr s => !s.isEmpty
  | _ => false

/-- `Joi.array().items(Joi.string())` : an array whose items all satisfy
`Joi.string()`; the array itself may be empty. -/
def joiStringArrayOk : JsVal → Bool
  | JsVal.varr xs => xs.all joiStringOk
  | _ => false

/-- Per-field type check shared by the create and partial schemas:
`title` and `body` are Joi strings, `tags` is a Joi array of strings;
any other key has no schema entry. -/
def fieldOk : String → JsVal → Bool
  | "title", v => joiStringOk v
  | "body", v => joiStringOk v
  | "tags", v => joiStringArrayOk v
  | _, _ => false

/-- A Joi validation error: an unknown key (Joi objects reject unknown
keys by default) or a present key whose value fails its field schema. -/
inductive FieldError where
  | notAllowed (k : String)
  | wrongType (k : String)
deriving Repr, DecidableEq

/-- Check one payload entry against the partial schema. -/
def checkField (kv : String × JsVal) : Option FieldError :=
  if kv.1 == "title" || kv.1 == "body" || kv.1 == "tags" then
    if fieldOk kv.1 kv.2 then none else some (FieldError.wrongType kv.1)
  else some (FieldError.notAllowed kv.1)

/-- The partial schema used in `read` (posts.ctrl.js lines 116-120):
`title`, `body`, `tags` all optional but typed as in create; unknown keys
rejected.  Returns the first validation error, or `none` on success. -/
def validatePartialE : Payload → Option FieldError
  | [] => none
  | kv :: rest =>
    match checkField kv with
    | some e => some e
    | none => validatePartialE rest

/-- The create schema used in `write` (posts.ctrl.js lines 18-25): same
per-field types, and `title`, `body`, `tags` are all `required()`. -/
def validateCreateOk (p : Payload) : Bool :=
  (validatePartialE p).isNone
    && (getField p "title").isSome
    && (getField p "body").isSome
    && (getField p "tags").isSome

/-- Hexadecimal character test (for ObjectId validity). -/
def isHexChar (c : Char) : Bool :=
  c.isDigit || ('a' ≤ c && c ≤ 'f') || ('A' ≤ c && c ≤ 'F')

/-- `mongoose.Types.ObjectId.isValid` on a string argument: a 24-character
hexadecimal string, or any 12-character string (12 raw bytes). -/
def isValidObjectId (s : String) : Bool :=
  (s.length == 24 && s.data.all isHexChar) || s.length == 12

/-- Numeric value of a decimal digit character. -/
def digitVal (c : Char) : Nat := c.toNat - '0'.toNat

/-- Natural number denoted by a list of decimal digits. -/
def natOfDigits (ds : List Char) : Nat :=
  ds.foldl (fun acc c => acc * 10 + digitVal c) 0

/-- The longest leading run of decimal digits, or `none` when there is no
leading digit (JS `parseInt` yields `NaN` then). -/
def leadingDigits (cs : List Char) : Option Nat :=
  if (cs.takeWhile Char.isDigit).isEmpty then none
  else some (natOfDigits (cs.takeWhile Char.isDigit))

/-- JS `parseInt(s, 10)`: skip leading whitespace, read an optional sign,
then the longest run of decimal digits, ignoring any trailing characters;
`none` models `NaN` (no digit found). -/
def parseIntJs (s : String) : Option Int :=
  match s.data.dropWhile Char.isWhitespace with
  | '-' :: rest => (leadingDigits rest).map (fun n => -(n : Int))
  | '+' :: rest => (leadingDigits rest).map (fun n => (n : Int))
  | cs => (leadingDigits cs).map (fun n => (n : Int))

/-- `ctx.query.page || '1'` (posts.ctrl.js line 59): a missing parameter
and the empty string (both falsy in JS) default to `"1"`. -/
def pageArg (q : Option String) : String :=
  match q with
  | none => "1"
  | some s => if s == "" then "1" else s

/-- The document store's contents: the stored posts, in insertion order. -/
structure Store where
  posts : List Post
deriving Repr, DecidableEq

/-- `Post.countDocuments()`: total number of stored posts. -/
def Store.count (st : Store) : Nat := st.posts.length

/-- `Post.findById(id)`: the stored post with the given id, if any.
Modelled from the spec: the mongoose model (`models/post.js`) is not under
src/; the spec's PostRepository defines `findById(id) -> Optional<Post>`
with absence as an empty result, not an error. -/
def Store.findById (st : Store) (id : String) : Option Post :=
  st.posts.find? (fun p => p.id == id)

/-- Lexicographic (byte-wise) order on character lists, the order MongoDB
uses on ObjectId bytes. -/
def charListLe : List Char → List Char → Bool
  | [], _ => true
  | _ :: _, [] => false
  | a :: as, b :: bs =>
    if a.toNat < b.toNat then true
    else if b.toNat < a.toNat then false
    else charListLe as bs

/-- Byte-wise string order (ObjectId comparison). -/
def strLe (a b : String) : Bool := charListLe a.data b.data

/-- Insert a post into a list kept in descending id order. -/
def insertDesc (p : Post) : List Post → List Post
  | [] => [p]
  | q :: qs => if strLe q.id p.id then p :: q :: qs else q :: insertDesc p qs

/-- `sort({ _id: -1 })`: the stored posts in descending id order, i.e.
most-recent-first (ObjectIds grow with creation time). -/
def sortByIdDesc : List Post → List Post
  | [] => []
  | p :: ps => insertDesc p (sortByIdDesc ps)

/-- `Post.find().sort({_id: -1}).limit(limit).skip(off)`: MongoDB applies
sort, then skip, then limit, regardless of the order the query builder
methods are chained in.  Modelled from the spec's
`findPage(sort=mostRecentFirst, limit, offset)`. -/
def Store.findPage (st : Store) (limit off : Nat) : List Post :=
  ((sortByIdDesc st.posts).drop off).take limit

/-- Strings among a list of JSON values (array items of a `tags` patch). -/
def strItems (xs : List JsVal) : List String :=
  xs.filterMap (fun v => match v with | JsVal.vstr s => some s | _ => none)

/-- Field-level merge of an update payload into a stored post.  Modelled
from the spec: `updateById(id, patch)` "merges patch fields into the
existing record"; mongoose applies a plain update document as `$set` on
the schema paths `title`, `body`, `tags`, and strict mode drops unknown
keys.  A field absent from the patch keeps its prior value. -/
def applyPatch (p : Post) (patch : Payload) : Post :=
  { id := p.id
    title := match getField patch "title" with | some (JsVal.vstr s) => s | _ => p.title
    body := match getField patch "body" with | some (JsVal.vstr s) => s | _ => p.body
    tags := match getField patch "tags" with | some (JsVal.varr xs) => strItems xs | _ => p.tags }

/-- `Post.findByIdAndUpdate(id, patch, {new: true})`: merge the patch into
the matching record and return the updated record (`new: true`), or
`none` when the id does not exist.  Modelled from the spec's
`updateById(id, patch) -> Optional<Post>`. -/
def Store.updateById (st : Store) (id : String) (patch : Payload) : Option Post × Store :=
  match st.findById id with
  | none => (none, st)
  | some p =>
    (some (applyPatch p patch),
     Store.mk (st.posts.map (fun q => if q.id == id then applyPatch p patch else q)))

/-- `Post.findByIdAndRemove(id)`: delete the matching record; deleting a
nonexistent id is a no-op.  Modelled from the spec's `deleteById`. -/
def Store.deleteById (st : Store) (id : String) : Store :=
  Store.mk (st.posts.filter (fun p => !(p.id == id)))

/-- `new Post({...}).save()`: persist a new post; the store assigns a
fresh opaque identifier.  Modelled from the spec: id generation lives in
the store (mongoose), outside src/. -/
def Store.create (st : Store) (t b : String) (tags : List String) : Post × Store :=
  (Post.mk ("oid" ++ toString st.posts.length) t b tags,
   Store.mk (st.posts ++ [Post.mk ("oid" ++ toString st.posts.length) t b tags]))

/-- The store operations a handler performed, in order. -/
inductive StoreOp where
  | opFindById (id : String)
  | opUpdateById (id : String) (patch : Payload)
  | opDeleteById (id : String)
  | opFindPage (skip : Option Int)
  | opCount
  | opCreate (t b : String) (tags : List String)

/-- A JS runtime exception. -/
inductive JsErr where
  | typeError (msg : String)
deriving Repr, DecidableEq

/-- The source expression `post.body.length()` (posts.ctrl.js line 82).
In JavaScript `post.body.length` is a number property of the string, not
a method; invoking it as a function throws
`TypeError: post.body.length is not a function` for every string, so this
call never yields a length. -/
def callLengthMethod (_s : String) : Except JsErr Nat :=
  Except.error (JsErr.typeError "post.body.length is not a function")

/-- The body rendering of `list` (posts.ctrl.js lines 81-84):
`post.body.length() < 200 ? post.body : post.body.slice(0, 200) + '...'`. -/
def renderBody (b : String) : Except JsErr String :=
  match callLengthMethod b with
  | Except.error e => Except.error e
  | Except.ok len => Except.ok (if len < 200 then b else b.take 200 ++ "...")

/-- One element of the `posts.map(...)` in `list` (lines 79-85):
`{...post, body: <rendered body>}`. -/
def renderPost (p : Post) : Except JsErr Post :=
  match renderBody p.body with
  | Except.error e => Except.error e
  | Except.ok b => Except.ok { p with body := b }

/-- `Math.ceil(n / 10)` for a natural `n` (posts.ctrl.js line 75): JS
divides as numbers and takes the ceiling, which for naturals is
`(n + 9) / 10` in integer arithmetic. -/
def jsCeilDiv10 (n : Nat) : Nat := (n + 9) / 10

/-- Outcome of the `write` handler. -/
inductive WriteResult where
  | created (p : Post)
  | badRequest
deriving Repr, DecidableEq

/-- Response status of a `write` outcome (Koa defaults a body-bearing
response to 200; validation failure sets 400). -/
def WriteResult.status : WriteResult → Nat
  | WriteResult.created _ => 200
  | WriteResult.badRequest => 400

/-- String content of a validated Joi string field (the `write` handler
destructures the payload only after validation has succeeded, so the
default branches are unreachable there). -/
def asStr : Option JsVal → String
  | some (JsVal.vstr s) => s
  | _ => ""

/-- Item list of a validated Joi string-array field. -/
def asStrList : Option JsVal → List String
  | some (JsVal.varr xs) => strItems xs
  | _ => []

/-- The `write` handler (posts.ctrl.js lines 14-50): validate the payload
against the create schema; on error respond 400 without touching the
store; otherwise create the post.  Returns the outcome, the store after
the request, and the store operations performed. -/
def writeHandler (st : Store) (payload : Payload) : WriteResult × Store × List StoreOp :=
  if validateCreateOk payload then
    (WriteResult.created
       (Store.create st (asStr (getField payload "title")) (asStr (getField payload "body"))
          (asStrList (getField payload "tags"))).1,
     (Store.create st (asStr (getField payload "title")) (asStr (getField payload "body"))
        (asStrList (getField payload "tags"))).2,
     [StoreOp.opCreate (asStr (getField payload "title")) (asStr (getField payload "body"))
        (asStrList (getField payload "tags"))])
  else (WriteResult.badRequest, st, [])

/-- Outcome of the `list` handler. -/
inductive ListResult where
  | clientError
  | naNQuery
  | serverError
  | ok (body : List Post) (lastPage : Nat)
deriving Repr, DecidableEq

/-- Response status of a `list` outcome: 400 for a rejected page, 500 for
the `ctx.throw(500, e)` in the catch block, 200 on success.  A `naNQuery`
outcome has no status determined by the controller: the request was
handed to the store with a `NaN` skip value and the final status depends
on the store's response. -/
def ListResult.status : ListResult → Option Nat
  | ListResult.clientError => some 400
  | ListResult.naNQuery => none
  | ListResult.serverError => some 500
  | ListResult.ok _ _ => some 200

/-- The `list` handler (posts.ctrl.js lines 56-89): parse the page
parameter (default `'1'`); reject a parsed page below 1 with 400 (a `NaN`
page passes this comparison and reaches the store with a `NaN` skip);
fetch the page (sorted most-recent-first, limit 10, skip `(page-1)*10`),
count the documents for the `Last-Page` header, then render each body.
The body rendering throws a `TypeError` (see `callLengthMethod`), which
the catch block converts to a 500; Koa's error handler discards headers
set before a throw, so the `Last-Page` value only survives on success and
is carried in the `ok` outcome. -/
def listHandler (st : Store) (q : Option String) : ListResult × List StoreOp :=
  match parseIntJs (pageArg q) with
  | none => (ListResult.naNQuery, [StoreOp.opFindPage none])
  | some page =>
    if page < 1 then (ListResult.clientError, [])
    else
      match (Store.findPage st 10 ((page - 1) * 10).toNat).mapM renderPost with
      | Except.error _ =>
        (ListResult.serverError,
         [StoreOp.opFindPage (some ((page - 1) * 10)), StoreOp.opCount])
      | Except.ok rendered =>
        (ListResult.ok rendered (jsCeilDiv10 (Store.count st)),
         [StoreOp.opFindPage (some ((page - 1) * 10)), StoreOp.opCount])

/-- Outcome of the `read` handler (with the routed id guard). -/
inductive ReadResult where
  | invalidId
  | badBody (e : FieldError)
  | notFound
  | ok (p : Post)
deriving Repr, DecidableEq

/-- Response status of a `read` outcome. -/
def ReadResult.status : ReadResult → Nat
  | ReadResult.invalidId => 400
  | ReadResult.badBody _ => 400
  | ReadResult.notFound => 404
  | ReadResult.ok _ => 200

/-- The `read` handler (posts.ctrl.js lines 111-142): validate the
request body against the partial schema; on error respond 400 with the
validation error as body, before any store access; otherwise look the
post up by id, responding 404 when absent and 200 with the post when
present. -/
def readHandler (st : Store) (id : String) (reqBody : Payload) : ReadResult × List StoreOp :=
  match validatePartialE reqBody with
  | some e => (ReadResult.badBody e, [])
  | none =>
    match Store.findById st id with
    | none => (ReadResult.notFound, [StoreOp.opFindById id])
    | some p => (ReadResult.ok p, [StoreOp.opFindById id])

/-- Outcome of the `update` handler (with the routed id guard). -/
inductive UpdateResult where
  | invalidId
  | notFound
  | ok (p : Post)
deriving Repr, DecidableEq

/-- Response status of an `update` outcome. -/
def UpdateResult.status : UpdateResult → Nat
  | UpdateResult.invalidId => 400
  | UpdateResult.notFound => 404
  | UpdateResult.ok _ => 200

/-- The `update` handler (posts.ctrl.js lines 164-179): no payload
validation of any kind — the raw request body is passed straight to
`findByIdAndUpdate`; 404 when the id matches no post, otherwise 200 with
the updated post. -/
def updateHandler (st : Store) (id : String) (payload : Payload) :
    UpdateResult × Store × List StoreOp :=
  match Store.updateById st id payload with
  | (none, st') => (UpdateResult.notFound, st', [StoreOp.opUpdateById id payload])
  | (some p, st') => (UpdateResult.ok p, st', [StoreOp.opUpdateById id payload])

/-- Outcome of the `remove` handler (with the routed id guard). -/
inductive RemoveResult where
  | invalidId
  | noContent
deriving Repr, DecidableEq

/-- Response status of a `remove` outcome. -/
def RemoveResult.status : RemoveResult → Nat
  | RemoveResult.invalidId => 400
  | RemoveResult.noContent => 204

/-- The `remove` handler (posts.ctrl.js lines 149-157): delete by id and
respond 204 with no body (even for a nonexistent id). -/
def removeHandler (st : Store) (id : String) : RemoveResult × Store × List StoreOp :=
  (RemoveResult.noContent, Store.deleteById st id, [StoreOp.opDeleteById id])

/-- `checkObjectId` (posts.ctrl.js lines 97-104) composed with `read`.
Modelled from the spec: the posts router (not under src/) applies
`checkObjectId` before `read`, `update` and `remove` (§4.2, §4.5); an
invalid id yields 400 and the guarded handler never runs. -/
def routedRead (st : Store) (rawId : String) (reqBody : Payload) : ReadResult × List StoreOp :=
  if isValidObjectId rawId then readHandler st rawId reqBody
  else (ReadResult.invalidId, [])

/-- `checkObjectId` composed with `update` (see `routedRead`). -/
def routedUpdate (st : Store) (rawId : String) (payload : Payload) :
    UpdateResult × Store × List StoreOp :=
  if isValidObjectId rawId then updateHandler st rawId payload
  else (UpdateResult.invalidId, st, [])

/-- `checkObjectId` composed with `remove` (see `routedRead`). -/
def routedRemove (st : Store) (rawId : String) : RemoveResult × Store × List StoreOp :=
  if isValidObjectId rawId then removeHandler st rawId
  else (RemoveResult.invalidId, st, [])

/-- A well-formed 24-hex-character ObjectId used in the C1 example. -/
def c1Oid : String := "aaaaaaaaaaaaaaaaaaaaaaaa"

/-- A store holding one post with the non-empty body `"a"`. -/
def c1Store : Store := Store.mk [Post.mk c1Oid "t1" "a" []]

/-- A store holding two posts (for the C4 example). -/
def c4Store : Store :=
  Store.mk [Post.mk "aaaaaaaaaaaaaaaaaaaaaaa1" "t1" "x" [],
            Post.mk "aaaaaaaaaaaaaaaaaaaaaaa2" "t2" "y" []]

/-- A well-formed ObjectId and a one-post store for the C2 example. -/
def c2Oid : String := "bbbbbbbbbbbbbbbbbbbbbbbb"

/-- Store for the C2 example. -/
def c2Store : Store := Store.mk [Post.mk c2Oid "t" "b" ["x"]]

/-- An update payload with a field (`author`) outside the update schema. -/
def c2Patch : Payload := [("author", JsVal.vstr "m"), ("title", JsVal.vstr "nt")]

/-- C1: the claim states that list rendering reads the body's length as a
property and succeeds for every post, truncating bodies over 200
characters.  On the code, `post.body.length()` invokes the `length`
property as a function, which throws a `TypeError` for every string: a
list over a store holding one post with the non-empty body `"a"` responds
500 (server error) instead of a rendered list, and `renderBody` errors on
every input rather than truncating. -/
theorem c1_list_body_length_call_throws :
    listHandler c1Store (some "1") =
      (ListResult.serverError, [StoreOp.opFindPage (some 0), StoreOp.opCount]) ∧
    renderBody "a" =
      Except.error (JsErr.typeError "post.body.length is not a function") :=
  ⟨rfl, rfl⟩

/-- C2: the claim states that an update payload containing a field outside
the update schema yields 400 and `updateById` is not invoked.  The `update`
handler performs no payload validation at all: with a payload containing
the unknown field `author` it invokes `findByIdAndUpdate` with the raw
payload and responds 200 with the updated post. -/
theorem c2_update_payload_not_validated :
    (routedUpdate c2Store c2Oid c2Patch).1 = UpdateResult.ok (Post.mk c2Oid "nt" "b" ["x"]) ∧
    (routedUpdate c2Store c2Oid c2Patch).1.status = 200 ∧
    (routedUpdate c2Store c2Oid c2Patch).2.2 = [StoreOp.opUpdateById c2Oid c2Patch] :=
  ⟨rfl, rfl, rfl⟩

/-- C4: the default-page and page-below-1 clauses hold (no parameter
defaults to page 1; `"0"` and `"-3"` yield the 400 outcome), but the body
clause fails on the code: with two stored posts and no page parameter the
handler responds 500 — the body rendering throws — instead of a response
body holding the two most recent posts at offset 0. -/
theorem c4_list_default_page_body_throws :
    listHandler c4Store none =
      (ListResult.serverError, [StoreOp.opFindPage (some 0), StoreOp.opCount]) ∧
    (listHandler c4Store (some "0")).1 = ListResult.clientError ∧
    (listHandler c4Store (some "-3")).1 = ListResult.clientError :=
  ⟨rfl, rfl, rfl⟩

/-- C3: a read, update or remove request whose raw identifier fails the
ObjectId format check responds 400, performs no store operation, and
leaves the store unchanged. -/
theorem c3_invalid_id_short_circuits (rawId : String) (h : isValidObjectId rawId = false) :
    ∀ (st : Store) (reqBody patch : Payload),
      (routedRead st rawId reqBody).1.status = 400 ∧ (routedRead st rawId reqBody).2 = [] ∧
      (routedUpdate st rawId patch).1.status = 400 ∧ (routedUpdate st rawId patch).2.2 = [] ∧
      (routedUpdate st rawId patch).2.1 = st ∧
      (routedRemove st rawId).1.status = 400 ∧ (routedRemove st rawId).2.2 = [] ∧
      (routedRemove st rawId).2.1 = st := by
  intro st reqBody patch
  simp [routedRead, routedUpdate, routedRemove, h, ReadResult.status, UpdateResult.status,
    RemoveResult.status]

/-- C3 witness: the malformed identifier `"zz"` short-circuits `read`. -/
theorem c3_invalid_id_witness :
    isValidObjectId "zz" = false ∧ (routedRead (Store.mk []) "zz" []).1.status = 400 :=
  ⟨by decide, (c3_invalid_id_short_circuits "zz" (by decide) (Store.mk []) [] []).1⟩

/-- C6: a create request whose payload fails the create schema responds
400, performs no store operation, leaves the store unchanged, and in
particular leaves the store's total post count unchanged. -/
theorem c6_create_invalid_payload_leaves_store (st : Store) (payload : Payload)
    (h : validateCreateOk payload = false) :
    writeHandler st payload = (WriteResult.badRequest, st, []) ∧
    (writeHandler st payload).1.status = 400 ∧
    Store.count (writeHandler st payload).2.1 = Store.count st := by
  refine ⟨?_, ?_, ?_⟩ <;> simp [writeHandler, h, WriteResult.status]

/-- C6 witness: a payload missing the required `tags` field is rejected
and the (empty) store is left untouched. -/
theorem c6_create_invalid_payload_witness :
    validateCreateOk [("title", JsVal.vstr "t"), ("body", JsVal.vstr "b")] = false ∧
    writeHandler (Store.mk []) [("title", JsVal.vstr "t"), ("body", JsVal.vstr "b")] =
      (WriteResult.badRequest, Store.mk [], []) :=
  ⟨by decide,
   (c6_create_invalid_payload_leaves_store (Store.mk [])
     [("title", JsVal.vstr "t"), ("body", JsVal.vstr "b")] (by decide)).1⟩

/-- A well-formed ObjectId for the C7 examples. -/
def c7Oid : String := "cccccccccccccccccccccccc"

/-- A request body with a field outside the partial-post schema. -/
def c7BadBody : Payload := [("foo", JsVal.vstr "x")]

/-- A stored post for the C7 witness. -/
def c7Post : Post := Post.mk c7Oid "t" "b" []

/-- C7 counterexample: the claim says every read with a well-formed
identifier yields 404 when `findById` is empty.  But a read whose request
body fails the partial-post validation responds 400 before the store is
consulted: with the well-formed id `c7Oid`, an empty store (so `findById`
is empty), and the request body `{foo: "x"}`, the response is 400, not
404. -/
theorem c7_read_counterexample :
    isValidObjectId c7Oid = true ∧
    Store.findById (Store.mk []) c7Oid = none ∧
    routedRead (Store.mk []) c7Oid c7BadBody =
      (ReadResult.badBody (FieldError.notAllowed "foo"), []) ∧
    (routedRead (Store.mk []) c7Oid c7BadBody).1.status = 400 ∧
    (routedRead (Store.mk []) c7Oid c7BadBody).1 ≠ ReadResult.notFound :=
  ⟨by decide, rfl, rfl, rfl, by decide⟩

/-- C7 (amended): for a read request with a well-formed identifier whose
request body passes the partial-post validation (in particular the empty
body), the response is 404 when `findById` returns no post and 200 with
that post when it returns one. -/
theorem c7_read_found_or_not_found (st : Store) (rawId : String) (reqBody : Payload)
    (hv : isValidObjectId rawId = true) (hb : validatePartialE reqBody = none) :
    (Store.findById st rawId = none →
      routedRead st rawId reqBody = (ReadResult.notFound, [StoreOp.opFindById rawId]) ∧
      (routedRead st rawId reqBody).1.status = 404) ∧
    (∀ p : Post, Store.findById st rawId = some p →
      routedRead st rawId reqBody = (ReadResult.ok p, [StoreOp.opFindById rawId]) ∧
      (routedRead st rawId reqBody).1.status = 200) := by
  constructor
  · intro hn
    constructor <;> simp [routedRead, hv, readHandler, hb, hn, ReadResult.status]
  · intro p hp
    constructor <;> simp [routedRead, hv, readHandler, hb, hp, ReadResult.status]

/-- C7 witness: a read of a stored post with an empty request body
responds 200 with the post. -/
theorem c7_read_witness :
    isValidObjectId c7Oid = true ∧ validatePartialE [] = none ∧
    Store.findById (Store.mk [c7Post]) c7Oid = some c7Post ∧
    routedRead (Store.mk [c7Post]) c7Oid [] =
      (ReadResult.ok c7Post, [StoreOp.opFindById c7Oid]) :=
  ⟨by decide, rfl, by decide,
   ((c7_read_found_or_not_found (Store.mk [c7Post]) c7Oid [] (by decide) rfl).2 c7Post
     (by decide)).1⟩

/-- A well-formed ObjectId for the C8 witness. -/
def c8Oid : String := "dddddddddddddddddddddddd"

/-- A stored post with a body and tags to be preserved. -/
def c8Post : Post := Post.mk c8Oid "old" "keepbody" ["k1", "k2"]

/-- C8: updating an existing post with the payload `{title: t}` changes
only `title`: the updated post returned by the handler keeps the prior
`body` and `tags`. -/
theorem c8_update_preserves_omitted_fields (st : Store) (rawId : String) (p : Post)
    (t : String) (hv : isValidObjectId rawId = true)
    (hf : Store.findById st rawId = some p) :
    ∃ p' : Post,
      (routedUpdate st rawId [("title", JsVal.vstr t)]).1 = UpdateResult.ok p' ∧
      p'.title = t ∧ p'.body = p.body ∧ p'.tags = p.tags := by
  refine ⟨applyPatch p [("title", JsVal.vstr t)], ?_, rfl, rfl, rfl⟩
  simp [routedUpdate, hv, updateHandler, Store.updateById, hf]

/-- C8 witness: `{title: "new"}` on a stored post keeps its body and
tags. -/
theorem c8_update_witness :
    isValidObjectId c8Oid = true ∧
    Store.findById (Store.mk [c8Post]) c8Oid = some c8Post ∧
    ∃ p' : Post,
      (routedUpdate (Store.mk [c8Post]) c8Oid [("title", JsVal.vstr "new")]).1 =
        UpdateResult.ok p' ∧
      p'.title = "new" ∧ p'.body = c8Post.body ∧ p'.tags = c8Post.tags :=
  ⟨by decide, by decide,
   c8_update_preserves_omitted_fields (Store.mk [c8Post]) c8Oid c8Post "new" (by decide)
     (by decide)⟩

/-- C9: a present page parameter that `parseInt` cannot parse (`NaN`) is
not rejected as a client error: `NaN < 1` is false in JS, so the handler
proceeds to query the store with a `NaN` skip value instead of responding
400. -/
theorem c9_nan_page_reaches_store (st : Store) (s : String)
    (hs : (s == "") = false) (hp : parseIntJs s = none) :
    (listHandler st (some s)).1 ≠ ListResult.clientError ∧
    (listHandler st (some s)).2 = [StoreOp.opFindPage none] := by
  have ha : pageArg (some s) = s := by simp [pageArg, hs]
  constructor <;> simp [listHandler, ha, hp]

/-- C9 witness: the unparseable page parameter `"abc"` reaches the store
with a `NaN` skip. -/
theorem c9_nan_page_witness :
    parseIntJs "abc" = none ∧
    (listHandler (Store.mk []) (some "abc")).2 = [StoreOp.opFindPage none] :=
  ⟨by decide, (c9_nan_page_reaches_store (Store.mk []) "abc" (by decide) (by decide)).2⟩

/-- A well-formed ObjectId for the C10 witness. -/
def c10Oid : String := "eeeeeeeeeeeeeeeeeeeeeeee"

/-- A stored post for the C10 witness. -/
def c10Post : Post := Post.mk c10Oid "t" "b" []

/-- A request body whose `tags` field has the wrong type. -/
def c10Bad : Payload := [("tags", JsVal.vnum 3)]

/-- C10: the `read` handler validates the request body against the
partial-post schema before touching the store, and on a validation error
responds 400 with the validation error as body and performs no store
operation — even when the identifier is well-formed. -/
theorem c10_read_validates_body_first (st : Store) (rawId : String) (reqBody : Payload)
    (e : FieldError) (hv : isValidObjectId rawId = true)
    (hb : validatePartialE reqBody = some e) :
    routedRead st rawId reqBody = (ReadResult.badBody e, []) ∧
    (routedRead st rawId reqBody).1.status = 400 := by
  constructor <;> simp [routedRead, hv, readHandler, hb, ReadResult.status]

/-- C10 witness: a read of an existing, well-formed identifier with the
ill-typed request body `{tags: 3}` responds 400 with the validation
error, without consulting the store. -/
theorem c10_read_validates_body_witness :
    isValidObjectId c10Oid = true ∧
    validatePartialE c10Bad = some (FieldError.wrongType "tags") ∧
    Store.findById (Store.mk [c10Post]) c10Oid = some c10Post ∧
    routedRead (Store.mk [c10Post]) c10Oid c10Bad =
      (ReadResult.badBody (FieldError.wrongType "tags"), []) :=
  ⟨by decide, by decide, by decide,
   (c10_read_validates_body_first (Store.mk [c10Post]) c10Oid c10Bad
     (FieldError.wrongType "tags") (by decide) (by decide)).1⟩

/-- C5: on every successful list response, the `Last-Page` value is
`ceil(count/10)`: it is the least natural `m` with `count ≤ 10 * m`, and
it is 0 when the store is empty. -/
theorem c5_last_page_is_ceil (st : Store) (q : Option String) (body : List Post)
    (lp : Nat) (tr : List StoreOp)
    (h : listHandler st q = (ListResult.ok body lp, tr)) :
    Store.count st ≤ 10 * lp ∧ (∀ m : Nat, Store.count st ≤ 10 * m → lp ≤ m) ∧
    (Store.count st = 0 → lp = 0) := by
  have hlp : lp = jsCeilDiv10 (Store.count st) := by
    unfold listHandler at h
    split at h
    · simp at h
    · split at h
      · simp at h
      · split at h
        · simp at h
        · simp only [Prod.mk.injEq] at h
          obtain ⟨h1, -⟩ := h
          injection h1 with hb hl
          exact hl.symm
  subst hlp
  unfold jsCeilDiv10
  refine ⟨?_, fun m hm => ?_, fun h0 => ?_⟩ <;> omega

/-- C5 witness: the empty store yields a successful empty page with
`Last-Page` 0. -/
theorem c5_last_page_witness :
    listHandler (Store.mk []) none =
      (ListResult.ok [] 0, [StoreOp.opFindPage (some 0), StoreOp.opCount]) ∧
    Store.count (Store.mk []) ≤ 10 * 0 :=
  ⟨rfl,
   (c5_last_page_is_ceil (Store.mk []) none [] 0
     [StoreOp.opFindPage (some 0), StoreOp.opCount] rfl).1⟩
